import Mathlib

/-!
# psicash-lib-android: the JNI glue (`psicashlib/src/main/cpp/jniglue.cpp`)

A shallow embedding of the JNI glue between the PsiCash engine and its Java host:

* `CheckJNIException`, `GetHTTPReqFn` (the host callback adapter),
* `Java_ca_psiphon_psicashlib_PsiCashLib_NativeStaticInit`,
* `Java_ca_psiphon_psicashlib_PsiCashLib_NewExpiringPurchase`.

What the glue calls but does not define is kept outside the embedding proper:

* the JVM (`JNIEnv` functions) is a record of behaviours, `JVM`;
* `json::parse` and `json::dump` are fields of `JsonLib`; the accessors of
  `nlohmann::json` that the glue uses (`operator[]`, `get<T>`, assignment into an object)
  follow that library's conversion rules;
* the engine (`psicash::PsiCash`) is an oracle for its purchase operation plus the one
  field the glue writes, the HTTP request function it holds, modelled from the
  specification;
* `error.h` (`MakeError`, `WrapError`, `ToString`), `utils::Stringer` and `Status` are
  modelled from the specification.
-/

namespace PsiCashJni

/-! ## nlohmann::json values -/

/-- The value kinds of `nlohmann::json` (`using json = nlohmann::json`, line 8).
`number_float` carries the exact value of the stored `double`. -/
inductive Json where
  | null
  | boolean (b : Bool)
  | number_integer (i : Int)
  | number_unsigned (n : Nat)
  | number_float (q : ℚ)
  | string (s : String)
  | array (elems : List Json)
  | object (members : List (String × Json))

/-- The type `json::exception`: the numeric `id` and the text of `what()`. -/
structure JsonException where
  id : Int
  what : String

/-- The name `json::type_name()` reports in the text of type errors. -/
def Json.type_name : Json → String
  | .null => "null"
  | .object _ => "object"
  | .array _ => "array"
  | .string _ => "string"
  | .boolean _ => "boolean"
  | .number_integer _ => "number"
  | .number_unsigned _ => "number"
  | .number_float _ => "number"

/-- The members of a JSON object, `std::map<std::string, json>`: a list of pairs kept
in ascending key order, the order of `std::less<std::string>` (lexicographic, character
by character). -/
abbrev object_t := List (String × Json)

/-- The lookup `std::map::find`. -/
def object_t.find : object_t → String → Option Json
  | [], _ => none
  | (k, v) :: rest, key => if k = key then some v else object_t.find rest key

/-- The insertion `std::map::emplace`: puts the pair at its place in key order and
leaves the map alone when the key is already there. -/
def object_t.emplace : object_t → String → Json → object_t
  | [], key, val => [(key, val)]
  | (k, v) :: rest, key, val =>
    if key.data < k.data then (key, val) :: (k, v) :: rest
    else if k = key then (k, v) :: rest
    else (k, v) :: object_t.emplace rest key val

/-- The statement `m[key] = val` on a map: overwrites the member, or inserts it at its
place in key order. -/
def object_t.assign : object_t → String → Json → object_t
  | [], key, val => [(key, val)]
  | (k, v) :: rest, key, val =>
    if key.data < k.data then (key, val) :: (k, v) :: rest
    else if k = key then (k, val) :: rest
    else (k, v) :: object_t.assign rest key val

/-- The constructor `json::object(init)`: the pairs of the initializer list are emplaced
one after the other. -/
def json_object (init : List (String × Json)) : object_t :=
  init.foldl (fun m kv => object_t.emplace m kv.1 kv.2) []

/-- The keys of an object, in map order. -/
def object_t.keys (m : object_t) : List String := m.map Prod.fst

/-- The non-const `json::operator[](key)` with a string key, as nlohmann::json 3.x
defines it: `null` silently becomes an empty object, an object yields the member
(inserting `null` when the key is absent), every other kind throws `type_error` 305.
Returns the member read and the container as the call leaves it. -/
def Json.operator_idx (j : Json) (key : String) : Except JsonException (Json × Json) :=
  match j with
  | .null => .ok (.null, .object (object_t.emplace [] key .null))
  | .object m =>
    match object_t.find m key with
    | some v => .ok (v, .object m)
    | none => .ok (.null, .object (object_t.emplace m key .null))
  | other =>
    .error ⟨305, "[json.exception.type_error.305] cannot use operator[] with "
      ++ other.type_name⟩

/-- The conversion `get<std::string>()` of nlohmann::json 3.x: only a JSON string converts,
every other kind throws `type_error` 302. -/
def Json.get_string (j : Json) : Except JsonException String :=
  match j with
  | .string s => .ok s
  | other =>
    .error ⟨302, "[json.exception.type_error.302] type must be string, but is "
      ++ other.type_name⟩

/-- The value of `static_cast<int64_t>` on an integer: reduction into the signed 64-bit
range. -/
def wrapInt64 (z : Int) : Int := (z + 2 ^ 63) % 2 ^ 64 - 2 ^ 63

/-- The value of `static_cast<int64_t>` on a `double`: the fractional part is discarded
(rounding toward zero) when the truncated value is an `int64_t`. When it is not, C++
leaves the conversion undefined, and the value is whatever the compiled code yields,
`outOfRange q`. -/
def truncDouble (outOfRange : ℚ → Int) (q : ℚ) : Int :=
  if -2 ^ 63 ≤ Int.tdiv q.num (q.den : Int) ∧ Int.tdiv q.num (q.den : Int) < 2 ^ 63 then
    Int.tdiv q.num (q.den : Int)
  else outOfRange q

/-- The conversion `get<int64_t>()` of nlohmann::json 3.x (`get_arithmetic_value`, as
`int64_t` is `number_integer_t`): each of the three number kinds is converted with
`static_cast`, every other kind (booleans included) throws `type_error` 302. -/
def Json.get_int64 (outOfRange : ℚ → Int) (j : Json) : Except JsonException Int :=
  match j with
  | .number_unsigned n => .ok (wrapInt64 (n : Int))
  | .number_integer i => .ok (wrapInt64 i)
  | .number_float q => .ok (truncDouble outOfRange q)
  | other =>
    .error ⟨302, "[json.exception.type_error.302] type must be number, but is "
      ++ other.type_name⟩

/-- What the glue takes as given from nlohmann::json and from the platform: the two entry
points that work on text, `json::parse` and `json::dump()`, and the value the compiled
`static_cast<int64_t>` yields for a `double` whose truncation is outside the `int64_t`
range (undefined in C++). -/
structure JsonLib where
  parse : String → Except JsonException Json
  dump : Json → String
  cast_out_of_range : ℚ → Int

/-! ## Status and errors (`psicash.h`, `error.h`, `utils`) -/

/-- Modelled from the spec: the status enumeration of §6 (`psicash.h` is not among the
sources), `Invalid = -1` followed by the engine-defined codes in the order the
specification lists them. -/
inductive Status where
  | Invalid
  | Success
  | ExistingTransaction
  | InsufficientBalance
  | TransactionAmountMismatch
  | TransactionTypeNotFound
  | InvalidTokens
  | ServerError
  deriving DecidableEq

/-- Modelled from the spec: the integer behind each status, `Invalid = -1` and the
engine's codes counted from `Success = 0`. -/
def Status.toInt : Status → Int
  | .Invalid => -1
  | .Success => 0
  | .ExistingTransaction => 1
  | .InsufficientBalance => 2
  | .TransactionAmountMismatch => 3
  | .TransactionTypeNotFound => 4
  | .InvalidTokens => 5
  | .ServerError => 6

/-- The conversion of an enumeration value to `json`: nlohmann::json stores the
underlying integer as `number_integer`. -/
def Status.to_json (s : Status) : Json := .number_integer s.toInt

/-- Modelled from the spec: the `ErrorValue` of §3 (`error.h` is not among the sources),
`{message, file, function, line, wrapped: Optional<ErrorValue>}`. -/
inductive ErrorValue where
  | mk (message file function : String) (line : Nat) (wrapped : Option ErrorValue)

/-- Modelled from the spec: `MakeError(message, file, function, line)` of §4.1, a leaf
error. -/
def MakeError (message file function : String) (line : Nat) : ErrorValue :=
  .mk message file function line none

/-- Modelled from the spec: `WrapError(cause, message, file, function, line)` of §4.1, a
new error whose `wrapped` field holds `cause`. -/
def WrapError (cause : ErrorValue) (message file function : String) (line : Nat) :
    ErrorValue :=
  .mk message file function line (some cause)

/-- The text of one level of an error: the message and where it was raised. -/
def frameText (message file function : String) (line : Nat) : String :=
  message ++ " [" ++ file ++ ":" ++ function ++ ":" ++ toString line ++ "]"

/-- Modelled from the spec: `ToString(ErrorValue)` of §4.1, a deterministic rendering of
the full chain into a single string: the top level first, then, on a new line, the
rendering of the wrapped cause. -/
def ErrorValue.ToString : ErrorValue → String
  | .mk m f fn l none => frameText m f fn l
  | .mk m f fn l (some cause) => frameText m f fn l ++ "\n" ++ ErrorValue.ToString cause

/-- Modelled from the spec: `utils::Stringer` (not among the sources) builds the text of
the input error of §4.4 by writing its arguments one after the other. -/
def Stringer : List String → String
  | [] => ""
  | arg :: rest => arg ++ Stringer rest

/-- The values the compiler substitutes for `__FILE__` and `__PRETTY_FUNCTION__` at the
places where the glue raises errors. -/
structure SourceInfo where
  file : String
  fn_http_req_fn : String
  fn_NewExpiringPurchase : String

/-! ## The JVM side of the boundary -/

/-- A `java.lang.String` object, known by the characters JNI reads from it. -/
structure JavaString where
  chars : String

/-- A `jstring`: a reference to a Java string, or `NULL`. -/
abbrev jstring := Option JavaString

/-- A `jobject`: a reference to a host instance. -/
abbrev jobject := Nat

/-- A `jmethodID`. -/
abbrev jmethodID := Nat

/-- A `JNIEnv*`, the invocation environment of one entry into native code. -/
abbrev JNIEnvPtr := Nat

/-- A Java class as JNI sees it: the instance methods it exposes, each with its name,
its signature and the identity `GetMethodID` hands out for it. -/
structure JavaClass where
  methods : List (String × String × jmethodID)

/-- A `jclass`: a reference (local or global) and the class it designates. -/
structure jclass where
  ref : Nat
  cls : JavaClass

/-- The outcome of a `CallObjectMethod` that comes back: the host method returned a
reference (possibly `NULL`), or it raised a fault, which JNI leaves pending while the call
yields `NULL`. -/
inductive CallResult where
  | returned (r : jstring)
  | threw

/-- The behaviour of the JVM at the JNI calls the adapter and the purchase entry point
make. `NewStringUTF` and `GetStringUTFChars` yield `none` for `NULL` (the JVM then has an
`OutOfMemoryError` pending). -/
structure JVM where
  NewStringUTF : JNIEnvPtr → String → jstring
  GetStringUTFChars : JNIEnvPtr → JavaString → Option String
  CallObjectMethod : JNIEnvPtr → jobject → Option jmethodID → JavaString → CallResult

/-- The state of an invocation environment that the glue reads or writes: whether an
exception is pending, how many times one was described to logcat, and how many global
references were created. -/
structure JNIEnvState where
  exception : Bool
  described : Nat
  globalRefs : Nat

/-- The bytes a `const char*` obtained with `std::string::c_str()` designates: the
characters up to the first NUL. -/
def c_str (s : String) : String := ⟨s.data.takeWhile (fun c => c ≠ Char.ofNat 0)⟩

/-- JNI `NewGlobalRef` on a class reference: a fresh global reference to the same
class (the glue does not test the result, and the model leaves out the `NULL` of an
exhausted JVM). -/
def NewGlobalRef (type : jclass) (st : JNIEnvState) : jclass × JNIEnvState :=
  (⟨st.globalRefs, type.cls⟩, { st with globalRefs := st.globalRefs + 1 })

/-- JNI `GetMethodID`: the identity of the instance method of that name and signature,
or `NULL` when the class exposes none (the JVM then has a `NoSuchMethodError`
pending). -/
def GetMethodID (clazz : jclass) (name sig : String) : Option jmethodID :=
  (clazz.cls.methods.find? (fun m => m.1 = name ∧ m.2.1 = sig)).map (fun m => m.2.2)

/-- The method name `HTTP_REQUEST_FN_NAME` (line 10). -/
def HTTP_REQUEST_FN_NAME : String := "makeHTTPRequest"

/-- The method signature `HTTP_REQUEST_FN_SIG` (line 11). -/
def HTTP_REQUEST_FN_SIG : String := "(Ljava/lang/String;)Ljava/lang/String;"

/-! ## The engine -/

/-- The closure `GetHTTPReqFn` returns: the lambda of line 40 with its captures, the
invocation environment `env` and the reference `&this_obj` to the entry point's
parameter. The reference is valid only while that entry point runs (lines 37-38); it is
given by the host instance it designates during that time, which is the only time a
closure exists in the model: the engine holds it from `SetHTTPRequestFn` until its
operation returns. -/
structure MakeHTTPRequestFn where
  env : JNIEnvPtr
  this_obj : jobject

/-- Modelled from the spec: a `Purchase` is an engine-owned record that the engine
serializes itself and the bridge relays unmodified (§3); the model keeps the JSON the
engine's `to_json` produces for it. -/
structure Purchase where
  to_json : Json

/-- Modelled from the spec: the `PurchaseResult` of §3, what the engine's purchase
operation yields on success. -/
structure NewExpiringPurchaseResponse where
  status : Status
  purchase : Option Purchase

/-- Modelled from the spec: the process-wide engine (`psicash::PsiCash`, not among the
sources) as far as the glue can observe it: the HTTP request function it currently holds
(none after `Init`, which the glue calls with `nullptr`, line 106), and a record of the
purchase operations it was asked to perform. -/
structure PsiCash where
  make_http_request_fn : Option MakeHTTPRequestFn
  purchase_calls : List (String × String × Int)

/-- The process-wide variables of the glue (lines 18-20). -/
structure Globals where
  g_jClass : Option jclass
  g_makeHTTPRequestMID : Option jmethodID
  g_psiCash : PsiCash

/-- Everything outside the glue that a call depends on: the JVM, the JSON text functions,
the outcome of the engine's purchase operation (given the HTTP capability it may use and
the three arguments) and the compiler-provided source locations. -/
structure World where
  vm : JVM
  lib : JsonLib
  engine : Option (String → String) → String → String → Int →
    Except ErrorValue NewExpiringPurchaseResponse
  info : SourceInfo

/-! ## The glue (`jniglue.cpp`) -/

/-- The function `CheckJNIException` (lines 28-35): reports whether an exception was
pending and, when one was, describes it to logcat and clears it. -/
def CheckJNIException (st : JNIEnvState) : Bool × JNIEnvState :=
  if st.exception then
    (true, { st with described := st.described + 1, exception := false })
  else
    (false, st)

/-- The function `GetHTTPReqFn` (lines 39-71): builds the closure over `env` and the
reference to `this_obj` (valid for the duration of the JNI call that passes them,
lines 37-38); its body is `http_req_fn`. -/
def GetHTTPReqFn (env : JNIEnvPtr) (this_obj : jobject) : MakeHTTPRequestFn :=
  ⟨env, this_obj⟩

/-- The body of the lambda `http_req_fn` (lines 40-68), run with the captures `c`, the
current value of the global `g_makeHTTPRequestMID` and the request `params`, from the
environment state `st`. Yields the returned string and the environment state. -/
def http_req_fn (w : World) (g_makeHTTPRequestMID : Option jmethodID)
    (c : MakeHTTPRequestFn) (params : String) (st : JNIEnvState) : String × JNIEnvState :=
  let stub_result : object_t :=
    json_object [("status", .number_integer (-1)), ("error", .null), ("body", .null),
      ("date", .null)]
  match w.vm.NewStringUTF c.env (c_str params) with
  | none =>
    let st := (CheckJNIException { st with exception := true }).2
    let stub_result := stub_result.assign "error"
      (.string (MakeError "NewStringUTF failed" w.info.file w.info.fn_http_req_fn 46).ToString)
    (w.lib.dump (.object stub_result), st)
  | some jParams =>
    let (jResult, st) : jstring × JNIEnvState :=
      match w.vm.CallObjectMethod c.env c.this_obj g_makeHTTPRequestMID jParams with
      | .returned r => (r, st)
      | .threw => (none, { st with exception := true })
    match jResult with
    | none =>
      let st := (CheckJNIException st).2
      let stub_result := stub_result.assign "error"
        (.string
          (MakeError "CallObjectMethod failed" w.info.file w.info.fn_http_req_fn 53).ToString)
      (w.lib.dump (.object stub_result), st)
    | some jResult =>
      match w.vm.GetStringUTFChars c.env jResult with
      | none =>
        let st := (CheckJNIException { st with exception := true }).2
        let stub_result := stub_result.assign "error"
          (.string
            (MakeError "GetStringUTFChars failed" w.info.file w.info.fn_http_req_fn 60).ToString)
        (w.lib.dump (.object stub_result), st)
      | some resultCString =>
        let result := resultCString
        (result, st)

/-- The entry point `Java_ca_psiphon_psicashlib_PsiCashLib_NativeStaticInit`
(lines 73-85). Yields the returned boolean, the globals and the environment state. -/
def Java_ca_psiphon_psicashlib_PsiCashLib_NativeStaticInit (type : jclass) (g : Globals)
    (st : JNIEnvState) : Bool × Globals × JNIEnvState :=
  let (ref, st) := NewGlobalRef type st
  let g := { g with g_jClass := some ref }
  let mid := GetMethodID ref HTTP_REQUEST_FN_NAME HTTP_REQUEST_FN_SIG
  let g := { g with g_makeHTTPRequestMID := mid }
  match mid with
  | none =>
    let st := (CheckJNIException { st with exception := true }).2
    (false, g, st)
  | some _ => (true, g, st)

/-- Modelled from the spec: `PsiCash::SetHTTPRequestFn` binds the engine's network
capability (§4.4, step 3). -/
def PsiCash.SetHTTPRequestFn (self : PsiCash) (fn : MakeHTTPRequestFn) : PsiCash :=
  { self with make_http_request_fn := some fn }

/-- Modelled from the spec: `PsiCash::NewExpiringPurchase(class, distinguisher,
expected_price) -> Result<PurchaseResult, Error>` (§1). The engine is opaque: its outcome
is what `w.engine` gives for the capability currently bound (each use of which runs
`http_req_fn` from an environment with no exception pending) and the three arguments; the
invocation is recorded. The callable "must not be stored by the engine beyond that
call's return" (§4.2) and is "never cached in engine-owned long-lived state" (§3): the
engine holds none once the operation has returned. -/
def PsiCash.NewExpiringPurchase (w : World) (g_makeHTTPRequestMID : Option jmethodID)
    (self : PsiCash) (transaction_class distinguisher : String) (expected_price : Int) :
    Except ErrorValue NewExpiringPurchaseResponse × PsiCash :=
  let capability : Option (String → String) :=
    self.make_http_request_fn.map
      (fun c params => (http_req_fn w g_makeHTTPRequestMID c params ⟨false, 0, 0⟩).1)
  (w.engine capability transaction_class distinguisher expected_price,
    { make_http_request_fn := none
      purchase_calls :=
        self.purchase_calls ++ [(transaction_class, distinguisher, expected_price)] })

/-- The `try` block of `NewExpiringPurchase` (lines 151-156): parse the request and read
the three fields, in this order; any `json::exception` ends the block. -/
def NewExpiringPurchase_try (lib : JsonLib) (params_json : String) :
    Except JsonException (String × String × Int) := do
  let j ← lib.parse params_json
  let (member, j) ← j.operator_idx "class"
  let transaction_class ← member.get_string
  let (member, j) ← j.operator_idx "distinguisher"
  let distinguisher ← member.get_string
  let (member, _) ← j.operator_idx "expectedPrice"
  let expected_price ← member.get_int64 lib.cast_out_of_range
  pure (transaction_class, distinguisher, expected_price)

/-- The entry point `Java_ca_psiphon_psicashlib_PsiCashLib_NewExpiringPurchase`
(lines 125-179). Yields the returned `jstring` and the globals as the call leaves
them. -/
def Java_ca_psiphon_psicashlib_PsiCashLib_NewExpiringPurchase (w : World) (g : Globals)
    (env : JNIEnvPtr) (this_obj : jobject) (j_params_json : jstring) : jstring × Globals :=
  let output : object_t :=
    json_object [("status", Status.Invalid.to_json), ("error", .null), ("purchase", .null)]
  match j_params_json with
  | none =>
    let output := output.assign "error"
      (.string
        (MakeError "j_params_json is null" w.info.file w.info.fn_NewExpiringPurchase
          136).ToString)
    (w.vm.NewStringUTF env (c_str (w.lib.dump (.object output))), g)
  | some j_params_json =>
    match w.vm.GetStringUTFChars env j_params_json with
    | none =>
      let output := output.assign "error"
        (.string
          (MakeError "GetStringUTFChars failed" w.info.file w.info.fn_NewExpiringPurchase
            142).ToString)
      (w.vm.NewStringUTF env (c_str (w.lib.dump (.object output))), g)
    | some c_params_json =>
      let params_json := c_params_json
      match NewExpiringPurchase_try w.lib params_json with
      | .error e =>
        let output := output.assign "error"
          (.string
            (MakeError
              (Stringer ["params json parse failed: ", e.what, "; id:", toString e.id])
              w.info.file w.info.fn_NewExpiringPurchase 158).ToString)
        (w.vm.NewStringUTF env (c_str (w.lib.dump (.object output))), g)
      | .ok (transaction_class, distinguisher, expected_price) =>
        let g := { g with g_psiCash := g.g_psiCash.SetHTTPRequestFn (GetHTTPReqFn env this_obj) }
        let (result, psiCash) :=
          g.g_psiCash.NewExpiringPurchase w g.g_makeHTTPRequestMID transaction_class
            distinguisher expected_price
        let g := { g with g_psiCash := psiCash }
        match result with
        | .error err =>
          let output := output.assign "error"
            (.string
              (WrapError err "g_psiCash.NewExpiringPurchase failed" w.info.file
                w.info.fn_NewExpiringPurchase 168).ToString)
          (w.vm.NewStringUTF env (c_str (w.lib.dump (.object output))), g)
        | .ok result =>
          let output := output.assign "status" result.status.to_json
          let output :=
            match result.purchase with
            | some purchase => output.assign "purchase" purchase.to_json
            | none => output
          (w.vm.NewStringUTF env (c_str (w.lib.dump (.object output))), g)

/-! ## Vocabulary of the statements -/

/-- A request object is well formed, `{class: string, distinguisher: string,
expectedPrice: int64}`: the three members are there, `class` and `distinguisher` are JSON
strings and `expectedPrice` is an integer of the `int64_t` range, stored as
`number_integer` or (when it is not negative) as `number_unsigned`. -/
def WellFormedRequest (members : object_t) (transaction_class distinguisher : String)
    (expected_price : Int) : Prop :=
  object_t.find members "class" = some (.string transaction_class) ∧
  object_t.find members "distinguisher" = some (.string distinguisher) ∧
  (object_t.find members "expectedPrice" = some (.number_integer expected_price) ∨
    (0 ≤ expected_price ∧
      object_t.find members "expectedPrice" = some (.number_unsigned expected_price.toNat))) ∧
  -2 ^ 63 ≤ expected_price ∧ expected_price < 2 ^ 63

/-- The response envelope `{status, error, purchase}` as a JSON object, members in map
order. -/
def envelope (status error purchase : Json) : Json :=
  .object [("error", error), ("purchase", purchase), ("status", status)]

/-- The `purchase` member of a response: the engine's serialization of the purchase when
there is one, `null` otherwise. -/
def purchaseMember (purchase : Option Purchase) : Json :=
  match purchase with
  | some p => p.to_json
  | none => .null

/-- The outcome of the engine's purchase operation as the entry point dispatches it: on
the engine with the adapter for `env` and `this_obj` bound. -/
def engineOutcome (w : World) (g : Globals) (env : JNIEnvPtr) (this_obj : jobject)
    (tc d : String) (price : Int) : Except ErrorValue NewExpiringPurchaseResponse :=
  ((g.g_psiCash.SetHTTPRequestFn (GetHTTPReqFn env this_obj)).NewExpiringPurchase w
    g.g_makeHTTPRequestMID tc d price).1

/-- The globals after a call that was dispatched to the engine with the given arguments:
one more purchase operation on record, no HTTP request function held. -/
def dispatchedGlobals (g : Globals) (tc d : String) (price : Int) : Globals :=
  { g with
    g_psiCash :=
      { make_http_request_fn := none
        purchase_calls := g.g_psiCash.purchase_calls ++ [(tc, d, price)] } }

/-- What `j[key]` reads from an object with these members: the member, or `null` when the
key is absent. -/
def memberOrNull (members : object_t) (key : String) : Json :=
  (object_t.find members key).getD .null

/-- The predicate `json::is_string()`. -/
def Json.is_string : Json → Bool
  | .string _ => true
  | _ => false

/-- The predicate `json::is_number()`: one of the three number kinds. -/
def Json.is_number : Json → Bool
  | .number_integer _ => true
  | .number_unsigned _ => true
  | .number_float _ => true
  | _ => false

/-- The result of the `try` block is a `json::exception` with id 302. -/
def ThrowsTypeError {α : Type} (r : Except JsonException α) : Prop :=
  match r with
  | .error e => e.id = 302
  | .ok _ => False

/-- The stub result of the adapter, `{status: -1, error, body: null, date: null}`, members
in map order. -/
def stubResult (error : Json) : Json :=
  .object [("body", .null), ("date", .null), ("error", error), ("status", .number_integer (-1))]

/-- The error texts the adapter puts into its stub result, one for each JNI call that can
fail: `NewStringUTF`, `CallObjectMethod`, `GetStringUTFChars`. -/
def adapterErrors (info : SourceInfo) : List String :=
  [(MakeError "NewStringUTF failed" info.file info.fn_http_req_fn 46).ToString,
    (MakeError "CallObjectMethod failed" info.file info.fn_http_req_fn 53).ToString,
    (MakeError "GetStringUTFChars failed" info.file info.fn_http_req_fn 60).ToString]

/-- The text `needle` occurs in the text `hay`. -/
def occursIn (needle hay : String) : Prop := needle.data <:+: hay.data

/-! ## A concrete world for the examples -/

/-- The hexadecimal digit for a number below 16. -/
def hexDigit (n : Nat) : Char := Char.ofNat (if n < 10 then 48 + n else 87 + n)

/-- The JSON escape of one character of a string: the quote, the backslash, the line
feed and the other control characters are escaped. -/
def escapeChar (c : Char) : List Char :=
  if c = Char.ofNat 34 then [Char.ofNat 92, Char.ofNat 34]
  else if c = Char.ofNat 92 then [Char.ofNat 92, Char.ofNat 92]
  else if c = Char.ofNat 10 then [Char.ofNat 92, 'n']
  else if c.toNat < 32 then
    [Char.ofNat 92, 'u', '0', '0', hexDigit (c.toNat / 16), hexDigit (c.toNat % 16)]
  else [c]

/-- The JSON escape of the characters of a string. -/
def escapeChars : List Char → List Char
  | [] => []
  | c :: rest => escapeChar c ++ escapeChars rest

/-- A JSON string literal. -/
def quoteText (s : String) : String :=
  ⟨Char.ofNat 34 :: (escapeChars s.data ++ [Char.ofNat 34])⟩

/-- The digits after the decimal point of `r / den`, at most `fuel` of them. -/
def fractionDigits (den : Nat) : Nat → Nat → List Char
  | 0, _ => []
  | fuel + 1, r =>
    if r = 0 then []
    else Char.ofNat (48 + r * 10 / den) :: fractionDigits den fuel (r * 10 % den)

/-- A decimal text for a `number_float`. -/
def floatText (q : ℚ) : String :=
  (if q.num < 0 then "-" else "") ++ toString (q.num.natAbs / q.den) ++ "." ++
    (match fractionDigits q.den 17 (q.num.natAbs % q.den) with
    | [] => "0"
    | ds => ⟨ds⟩)

mutual
/-- A compact JSON writer, the `dump` of the concrete world. -/
def demoDump : Json → String
  | .null => "null"
  | .boolean b => if b then "true" else "false"
  | .number_integer i => toString i
  | .number_unsigned n => toString n
  | .number_float q => floatText q
  | .string s => quoteText s
  | .array elems => "[" ++ demoDumpElems elems ++ "]"
  | .object members => "\x7b" ++ demoDumpMembers members ++ "\x7d"
/-- The elements of an array, separated by commas. -/
def demoDumpElems : List Json → String
  | [] => ""
  | [j] => demoDump j
  | j :: rest => demoDump j ++ "," ++ demoDumpElems rest
/-- The members of an object, separated by commas. -/
def demoDumpMembers : List (String × Json) → String
  | [] => ""
  | [(k, j)] => quoteText k ++ ":" ++ demoDump j
  | (k, j) :: rest => quoteText k ++ ":" ++ demoDump j ++ "," ++ demoDumpMembers rest
end

/-- The compiler-provided names of the concrete world. -/
def demoInfo : SourceInfo where
  file := "jniglue.cpp"
  fn_http_req_fn := "GetHTTPReqFn(JNIEnv *, jobject &)::(anonymous class)::operator()"
  fn_NewExpiringPurchase := "Java_ca_psiphon_psicashlib_PsiCashLib_NewExpiringPurchase"

/-- A well-formed purchase request. -/
def purchaseRequest : String :=
  "\x7b\"class\":\"speed-boost\",\"distinguisher\":\"1hr\",\"expectedPrice\":100\x7d"

/-- The members of `purchaseRequest`. -/
def purchaseMembers : object_t :=
  [("class", .string "speed-boost"), ("distinguisher", .string "1hr"),
    ("expectedPrice", .number_unsigned 100)]

/-- A purchase request whose price has a fractional part. -/
def fractionalRequest : String :=
  "\x7b\"class\":\"speed-boost\",\"distinguisher\":\"1hr\",\"expectedPrice\":1.5\x7d"

/-- The members of `fractionalRequest`. -/
def fractionalMembers : object_t :=
  [("class", .string "speed-boost"), ("distinguisher", .string "1hr"),
    ("expectedPrice", .number_float (3 / 2))]

/-- A purchase request whose price is a boolean. -/
def booleanRequest : String :=
  "\x7b\"class\":\"speed-boost\",\"distinguisher\":\"1hr\",\"expectedPrice\":true\x7d"

/-- The members of `booleanRequest`. -/
def booleanMembers : object_t :=
  [("class", .string "speed-boost"), ("distinguisher", .string "1hr"),
    ("expectedPrice", .boolean true)]

/-- A purchase request without `distinguisher`. -/
def incompleteRequest : String :=
  "\x7b\"class\":\"speed-boost\",\"expectedPrice\":100\x7d"

/-- The members of `incompleteRequest`. -/
def incompleteMembers : object_t :=
  [("class", .string "speed-boost"), ("expectedPrice", .number_unsigned 100)]

/-- The texts the JSON reader of the concrete world knows, each with the value it
stands for: the requests above, the literal `null` and the three stub results of the
adapter. -/
def demoDocuments : List (String × Json) :=
  [("null", .null),
    (purchaseRequest, .object purchaseMembers),
    (fractionalRequest, .object fractionalMembers),
    (booleanRequest, .object booleanMembers),
    (incompleteRequest, .object incompleteMembers),
    ("\x7b\"body\":null,\"date\":null,\"error\":\"NewStringUTF failed [jniglue.cpp:GetHTTPReqFn(JNIEnv *, jobject &)::(anonymous class)::operator():46]\",\"status\":-1\x7d",
      stubResult (.string (MakeError "NewStringUTF failed" demoInfo.file
        demoInfo.fn_http_req_fn 46).ToString)),
    ("\x7b\"body\":null,\"date\":null,\"error\":\"CallObjectMethod failed [jniglue.cpp:GetHTTPReqFn(JNIEnv *, jobject &)::(anonymous class)::operator():53]\",\"status\":-1\x7d",
      stubResult (.string (MakeError "CallObjectMethod failed" demoInfo.file
        demoInfo.fn_http_req_fn 53).ToString)),
    ("\x7b\"body\":null,\"date\":null,\"error\":\"GetStringUTFChars failed [jniglue.cpp:GetHTTPReqFn(JNIEnv *, jobject &)::(anonymous class)::operator():60]\",\"status\":-1\x7d",
      stubResult (.string (MakeError "GetStringUTFChars failed" demoInfo.file
        demoInfo.fn_http_req_fn 60).ToString))]

/-- The JSON reader of the concrete world: the value of a known text, a parse error
(id 101) for every other text. -/
def demoParse (text : String) : Except JsonException Json :=
  match demoDocuments.find? (fun doc => doc.1 = text) with
  | some doc => .ok doc.2
  | none => .error ⟨101, "[json.exception.parse_error.101] parse error"⟩

/-- The reply of the host of the concrete world to an HTTP request. -/
def hostReply : String :=
  "\x7b\"status\":200,\"error\":null,\"body\":\"\",\"date\":\"\"\x7d"

/-- The JVM of the concrete world: strings always cross the boundary; host instance 0
answers every request with `hostReply`, host instance 1 returns null, every other host
instance raises a fault. -/
def demoVM : JVM where
  NewStringUTF := fun _ bytes => some ⟨bytes⟩
  GetStringUTFChars := fun _ str => some str.chars
  CallObjectMethod := fun _ this_obj _ _ =>
    match this_obj with
    | 0 => .returned (some ⟨hostReply⟩)
    | 1 => .returned none
    | _ => .threw

/-- The engine of the concrete world: it sends one request through its HTTP capability
and reports success with a purchase when the host answered with `hostReply`, an error
otherwise. -/
def demoEngine (capability : Option (String → String)) (transaction_class distinguisher : String)
    (expected_price : Int) : Except ErrorValue NewExpiringPurchaseResponse :=
  match capability with
  | none => .error (MakeError "no HTTP request function" "psicash.cpp" "NewExpiringPurchase" 1)
  | some makeHTTPRequest =>
    if makeHTTPRequest
        (demoDump (.object [("class", .string transaction_class),
          ("distinguisher", .string distinguisher),
          ("expectedPrice", .number_integer expected_price)])) = hostReply then
      .ok ⟨.Success,
        some ⟨.object [("class", .string transaction_class),
          ("distinguisher", .string distinguisher)]⟩⟩
    else .error (MakeError "request failed" "psicash.cpp" "NewExpiringPurchase" 2)

/-- The concrete world. -/
def demoWorld : World where
  vm := demoVM
  lib := ⟨demoParse, demoDump, fun _ => -2 ^ 63⟩
  engine := demoEngine
  info := demoInfo

/-- The globals after a successful static initialisation, before any purchase call. -/
def demoGlobals : Globals where
  g_jClass := some ⟨0, ⟨[(HTTP_REQUEST_FN_NAME, HTTP_REQUEST_FN_SIG, 7)]⟩⟩
  g_makeHTTPRequestMID := some 7
  g_psiCash := ⟨none, []⟩

/-! ## Lemmas on the JSON accessors -/

theorem output_init (status : Json) :
    json_object [("status", status), ("error", .null), ("purchase", .null)]
      = [("error", .null), ("purchase", .null), ("status", status)] := by
  simp +decide [json_object, object_t.emplace]

theorem assign_error (e p s v : Json) :
    object_t.assign [("error", e), ("purchase", p), ("status", s)] "error" v
      = [("error", v), ("purchase", p), ("status", s)] := by
  simp +decide [object_t.assign]

theorem assign_purchase (e p s v : Json) :
    object_t.assign [("error", e), ("purchase", p), ("status", s)] "purchase" v
      = [("error", e), ("purchase", v), ("status", s)] := by
  simp +decide [object_t.assign]

theorem assign_status (e p s v : Json) :
    object_t.assign [("error", e), ("purchase", p), ("status", s)] "status" v
      = [("error", e), ("purchase", p), ("status", v)] := by
  simp +decide [object_t.assign]

theorem c_str_of_no_nul (s : String) (h : Char.ofNat 0 ∉ s.data) : c_str s = s := by
  unfold c_str
  have hall : s.data.takeWhile (fun c => c ≠ Char.ofNat 0) = s.data := by
    rw [List.takeWhile_eq_self_iff]
    intro c hc
    have hne : c ≠ Char.ofNat 0 := fun heq => h (heq ▸ hc)
    simpa using hne
  rw [hall]

theorem wrapInt64_of_range (z : Int) (hlo : -2 ^ 63 ≤ z) (hhi : z < 2 ^ 63) :
    wrapInt64 z = z := by
  unfold wrapInt64
  omega

theorem try_ok (lib : JsonLib) (req : String) (members : object_t) (tc d : String)
    (pj : Json) (price : Int) (hparse : lib.parse req = .ok (.object members))
    (hc : object_t.find members "class" = some (.string tc))
    (hd : object_t.find members "distinguisher" = some (.string d))
    (hp : object_t.find members "expectedPrice" = some pj)
    (hget : pj.get_int64 lib.cast_out_of_range = .ok price) :
    NewExpiringPurchase_try lib req = .ok (tc, d, price) := by
  simp [NewExpiringPurchase_try, hparse, Json.operator_idx, hc, hd, hp, Json.get_string, hget,
    bind, Except.bind, pure, Except.pure]

theorem try_ok_of_wellFormed (lib : JsonLib) (req : String) (members : object_t)
    (tc d : String) (price : Int) (hparse : lib.parse req = .ok (.object members))
    (hwf : WellFormedRequest members tc d price) :
    NewExpiringPurchase_try lib req = .ok (tc, d, price) := by
  obtain ⟨hc, hd, hp, hlo, hhi⟩ := hwf
  rcases hp with hp | ⟨h0, hp⟩
  · exact try_ok lib req members tc d _ price hparse hc hd hp
      (by simp [Json.get_int64, wrapInt64_of_range price hlo hhi])
  · refine try_ok lib req members tc d _ price hparse hc hd hp ?_
    have hcast : ((price.toNat : Nat) : Int) = price := Int.toNat_of_nonneg h0
    simp [Json.get_int64, hcast, wrapInt64_of_range price hlo hhi]

/-! ## The purchase entry point once the request is read -/

theorem entry_engine_error (w : World) (g : Globals) (env : JNIEnvPtr) (this_obj : jobject)
    (js : JavaString) (req : String) (tc d : String) (price : Int) (err : ErrorValue)
    (hread : w.vm.GetStringUTFChars env js = some req)
    (htry : NewExpiringPurchase_try w.lib req = .ok (tc, d, price))
    (heng : engineOutcome w g env this_obj tc d price = .error err) :
    Java_ca_psiphon_psicashlib_PsiCashLib_NewExpiringPurchase w g env this_obj (some js)
      = (w.vm.NewStringUTF env (c_str (w.lib.dump
          (envelope Status.Invalid.to_json
            (.string (WrapError err "g_psiCash.NewExpiringPurchase failed" w.info.file
              w.info.fn_NewExpiringPurchase 168).ToString) .null))),
        dispatchedGlobals g tc d price) := by
  simp only [engineOutcome, PsiCash.NewExpiringPurchase, PsiCash.SetHTTPRequestFn] at heng
  simp only [Java_ca_psiphon_psicashlib_PsiCashLib_NewExpiringPurchase, hread, htry,
    output_init, PsiCash.NewExpiringPurchase, heng, assign_error, envelope, dispatchedGlobals,
    PsiCash.SetHTTPRequestFn]

theorem entry_engine_ok (w : World) (g : Globals) (env : JNIEnvPtr) (this_obj : jobject)
    (js : JavaString) (req : String) (tc d : String) (price : Int)
    (r : NewExpiringPurchaseResponse)
    (hread : w.vm.GetStringUTFChars env js = some req)
    (htry : NewExpiringPurchase_try w.lib req = .ok (tc, d, price))
    (heng : engineOutcome w g env this_obj tc d price = .ok r) :
    Java_ca_psiphon_psicashlib_PsiCashLib_NewExpiringPurchase w g env this_obj (some js)
      = (w.vm.NewStringUTF env (c_str (w.lib.dump
          (envelope r.status.to_json .null (purchaseMember r.purchase)))),
        dispatchedGlobals g tc d price) := by
  simp only [engineOutcome, PsiCash.NewExpiringPurchase, PsiCash.SetHTTPRequestFn] at heng
  simp only [Java_ca_psiphon_psicashlib_PsiCashLib_NewExpiringPurchase, hread, htry,
    output_init, PsiCash.NewExpiringPurchase, heng, assign_status, envelope, dispatchedGlobals,
    PsiCash.SetHTTPRequestFn]
  rcases r.purchase with _ | p <;> simp only [assign_purchase, purchaseMember]

theorem entry_try_error (w : World) (g : Globals) (env : JNIEnvPtr) (this_obj : jobject)
    (js : JavaString) (req : String) (e : JsonException)
    (hread : w.vm.GetStringUTFChars env js = some req)
    (htry : NewExpiringPurchase_try w.lib req = .error e) :
    Java_ca_psiphon_psicashlib_PsiCashLib_NewExpiringPurchase w g env this_obj (some js)
      = (w.vm.NewStringUTF env (c_str (w.lib.dump
          (envelope Status.Invalid.to_json
            (.string (MakeError
              (Stringer ["params json parse failed: ", e.what, "; id:", toString e.id])
              w.info.file w.info.fn_NewExpiringPurchase 158).ToString) .null))),
        g) := by
  simp only [Java_ca_psiphon_psicashlib_PsiCashLib_NewExpiringPurchase, hread, htry,
    output_init, assign_error, envelope]

theorem entry_dispatched_globals (w : World) (g : Globals) (env : JNIEnvPtr)
    (this_obj : jobject) (js : JavaString) (req : String) (tc d : String) (price : Int)
    (hread : w.vm.GetStringUTFChars env js = some req)
    (htry : NewExpiringPurchase_try w.lib req = .ok (tc, d, price)) :
    (Java_ca_psiphon_psicashlib_PsiCashLib_NewExpiringPurchase w g env this_obj (some js)).2
      = dispatchedGlobals g tc d price := by
  rcases heng : engineOutcome w g env this_obj tc d price with err | r
  · rw [entry_engine_error w g env this_obj js req tc d price err hread htry heng]
  · rw [entry_engine_ok w g env this_obj js req tc d price r hread htry heng]

theorem truncDouble_of_range (outOfRange : ℚ → Int) (q : ℚ)
    (hlo : -2 ^ 63 ≤ Int.tdiv q.num (q.den : Int))
    (hhi : Int.tdiv q.num (q.den : Int) < 2 ^ 63) :
    truncDouble outOfRange q = Int.tdiv q.num (q.den : Int) := by
  unfold truncDouble
  rw [if_pos ⟨hlo, hhi⟩]

theorem tdiv_eq_floor (q : ℚ) (h : 0 ≤ q) : Int.tdiv q.num (q.den : Int) = ⌊q⌋ := by
  rw [Rat.floor_def]
  have hnum : 0 ≤ q.num := Rat.num_nonneg.mpr h
  rw [Int.tdiv_eq_ediv hnum (Int.ofNat_nonneg _)]

theorem tdiv_eq_ceil (q : ℚ) (h : q ≤ 0) : Int.tdiv q.num (q.den : Int) = ⌈q⌉ := by
  have hfl := tdiv_eq_floor (-q) (by linarith)
  rw [Rat.num_neg_eq_neg_num, Rat.den_neg_eq_den] at hfl
  rw [← Int.neg_inj, ← Int.floor_neg, ← hfl, Int.neg_tdiv]

theorem entry_null (w : World) (g : Globals) (env : JNIEnvPtr) (this_obj : jobject) :
    Java_ca_psiphon_psicashlib_PsiCashLib_NewExpiringPurchase w g env this_obj none
      = (w.vm.NewStringUTF env (c_str (w.lib.dump
          (envelope Status.Invalid.to_json
            (.string (MakeError "j_params_json is null" w.info.file
              w.info.fn_NewExpiringPurchase 136).ToString) .null))),
        g) := by
  simp only [Java_ca_psiphon_psicashlib_PsiCashLib_NewExpiringPurchase, output_init,
    assign_error, envelope]

theorem throwsTypeError_elim {α : Type} (r : Except JsonException α) (h : ThrowsTypeError r) :
    ∃ e, r = .error e ∧ e.id = 302 := by
  cases r with
  | error e => exact ⟨e, rfl, h⟩
  | ok a => exact absurd h (by simp [ThrowsTypeError])

theorem try_throws_of_bad_member (lib : JsonLib) (req : String) (members : object_t)
    (hparse : lib.parse req = .ok (.object members))
    (hbad : (memberOrNull members "class").is_string = false ∨
      (memberOrNull members "distinguisher").is_string = false ∨
      (memberOrNull members "expectedPrice").is_number = false) :
    ThrowsTypeError (NewExpiringPurchase_try lib req) := by
  unfold NewExpiringPurchase_try
  simp only [hparse, bind, Except.bind, Json.operator_idx]
  rcases hc : object_t.find members "class" with _ | vc
  · simp [ThrowsTypeError, Json.get_string]
  cases vc <;> simp only [Json.get_string, ThrowsTypeError]
  rcases hd : object_t.find members "distinguisher" with _ | vd
  · simp [ThrowsTypeError, Json.get_string]
  cases vd <;> simp only [Json.get_string, ThrowsTypeError]
  rcases hp : object_t.find members "expectedPrice" with _ | vp
  · simp [ThrowsTypeError, Json.get_int64]
  cases vp <;> simp only [Json.get_int64, ThrowsTypeError] <;>
    simp [memberOrNull, hc, hd, hp, Json.is_string, Json.is_number] at hbad

theorem try_throws_of_null (lib : JsonLib) (req : String)
    (hparse : lib.parse req = .ok .null) :
    ThrowsTypeError (NewExpiringPurchase_try lib req) := by
  simp [NewExpiringPurchase_try, hparse, bind, Except.bind, Json.operator_idx,
    Json.get_string, ThrowsTypeError]

theorem occursIn_append_right (needle a b : String) (h : occursIn needle a) :
    occursIn needle (a ++ b) := by
  obtain ⟨p, q, hpq⟩ := h
  exact ⟨p, q ++ b.data, by simp [String.data_append, ← hpq]⟩

theorem occursIn_append_left (needle a b : String) (h : occursIn needle b) :
    occursIn needle (a ++ b) := by
  obtain ⟨p, q, hpq⟩ := h
  exact ⟨a.data ++ p, q, by simp [String.data_append, ← hpq]⟩

theorem occursIn_self (s : String) : occursIn s s := ⟨[], [], by simp⟩

theorem occursIn_frameText (needle m f fn : String) (l : Nat) (h : occursIn needle m) :
    occursIn needle (frameText m f fn l) := by
  unfold frameText
  repeat apply occursIn_append_right
  exact h

theorem occursIn_id_parse_error (e : JsonException) (f fn : String) (l : Nat) :
    occursIn ("; id:" ++ toString e.id)
      (MakeError (Stringer ["params json parse failed: ", e.what, "; id:", toString e.id])
        f fn l).ToString := by
  simp only [MakeError, ErrorValue.ToString]
  apply occursIn_frameText
  simp only [Stringer]
  apply occursIn_append_left
  apply occursIn_append_left
  exact ⟨[], [], by simp [String.data_append]⟩

theorem occursIn_cause (cause : ErrorValue) (m f fn : String) (l : Nat) :
    occursIn cause.ToString (WrapError cause m f fn l).ToString := by
  simp only [WrapError, ErrorValue.ToString]
  apply occursIn_append_left
  exact occursIn_self _

/-! ## The purchase entry point: the response envelope -/

/-- C1: for every well-formed request `{class, distinguisher, expectedPrice}` and
whatever the engine returns, `NewExpiringPurchase` returns (as a host string) the
serialization of a JSON object whose keys are exactly `error`, `purchase`, `status`, and
in which `error` is non-null only if `status` is `Status::Invalid`. -/
theorem NewExpiringPurchase_response_shape (w : World) (g : Globals) (env : JNIEnvPtr)
    (this_obj : jobject) (js : JavaString) (req : String) (members : object_t)
    (tc d : String) (price : Int)
    (hread : w.vm.GetStringUTFChars env js = some req)
    (hparse : w.lib.parse req = .ok (.object members))
    (hwf : WellFormedRequest members tc d price) :
    ∃ out : object_t,
      (Java_ca_psiphon_psicashlib_PsiCashLib_NewExpiringPurchase w g env this_obj (some js)).1
        = w.vm.NewStringUTF env (c_str (w.lib.dump (.object out))) ∧
      out.keys = ["error", "purchase", "status"] ∧
      (∀ k, k ∈ out.keys ↔ (k = "status" ∨ k = "error" ∨ k = "purchase")) ∧
      (object_t.find out "error" ≠ some .null →
        object_t.find out "status" = some Status.Invalid.to_json) := by
  have htry := try_ok_of_wellFormed w.lib req members tc d price hparse hwf
  have hkeys : ∀ e p s : Json, ∀ k : String,
      k ∈ object_t.keys [("error", e), ("purchase", p), ("status", s)] ↔
        (k = "status" ∨ k = "error" ∨ k = "purchase") := by
    intro e p s k
    simp only [object_t.keys, List.map, List.mem_cons, List.mem_singleton, List.not_mem_nil,
      or_false]
    tauto
  rcases heng : engineOutcome w g env this_obj tc d price with err | r
  · refine ⟨[("error", .string (WrapError err "g_psiCash.NewExpiringPurchase failed"
        w.info.file w.info.fn_NewExpiringPurchase 168).ToString), ("purchase", .null),
        ("status", Status.Invalid.to_json)], ?_, rfl, hkeys _ _ _, ?_⟩
    · rw [entry_engine_error w g env this_obj js req tc d price err hread htry heng]
      rfl
    · intro _
      simp +decide [object_t.find]
  · refine ⟨[("error", .null), ("purchase", purchaseMember r.purchase),
        ("status", r.status.to_json)], ?_, rfl, hkeys _ _ _, ?_⟩
    · rw [entry_engine_ok w g env this_obj js req tc d price r hread htry heng]
      rfl
    · intro h
      exact absurd (by simp +decide [object_t.find]) h

/-- C2: for every well-formed request on which the engine's `NewExpiringPurchase`
succeeds with result `r`, the response is `{status: r.status, error: null, purchase}`
where `purchase` is the engine's serialization of `r.purchase` when there is one and
`null` when there is none, whatever `r.status` is. -/
theorem NewExpiringPurchase_success (w : World) (g : Globals) (env : JNIEnvPtr)
    (this_obj : jobject) (js : JavaString) (req : String) (members : object_t)
    (tc d : String) (price : Int) (r : NewExpiringPurchaseResponse)
    (hread : w.vm.GetStringUTFChars env js = some req)
    (hparse : w.lib.parse req = .ok (.object members))
    (hwf : WellFormedRequest members tc d price)
    (heng : engineOutcome w g env this_obj tc d price = .ok r) :
    (Java_ca_psiphon_psicashlib_PsiCashLib_NewExpiringPurchase w g env this_obj (some js)).1
      = w.vm.NewStringUTF env (c_str (w.lib.dump
          (.object [("error", .null), ("purchase", purchaseMember r.purchase),
            ("status", .number_integer r.status.toInt)]))) ∧
    (∀ p, r.purchase = some p → purchaseMember r.purchase = p.to_json) ∧
    (r.purchase = none → purchaseMember r.purchase = .null) := by
  have htry := try_ok_of_wellFormed w.lib req members tc d price hparse hwf
  rw [entry_engine_ok w g env this_obj js req tc d price r hread htry heng]
  refine ⟨rfl, ?_, ?_⟩
  · intro p hp
    simp [purchaseMember, hp]
  · intro hp
    simp [purchaseMember, hp]

/-- C3: for every request that parses as a JSON object but lacks at least one of the keys
`class`, `distinguisher`, `expectedPrice`, the response has status `Invalid`, purchase
`null` and an error string that contains the identifier of the exception the JSON library
threw (the text after `"; id:"`); the engine is left as it was. -/
theorem NewExpiringPurchase_missing_field (w : World) (g : Globals) (env : JNIEnvPtr)
    (this_obj : jobject) (js : JavaString) (req : String) (members : object_t)
    (hread : w.vm.GetStringUTFChars env js = some req)
    (hparse : w.lib.parse req = .ok (.object members))
    (hmiss : object_t.find members "class" = none ∨
      object_t.find members "distinguisher" = none ∨
      object_t.find members "expectedPrice" = none) :
    ∃ (e : JsonException) (msg : String),
      NewExpiringPurchase_try w.lib req = .error e ∧
      Java_ca_psiphon_psicashlib_PsiCashLib_NewExpiringPurchase w g env this_obj (some js)
        = (w.vm.NewStringUTF env (c_str (w.lib.dump
            (.object [("error", .string msg), ("purchase", .null),
              ("status", .number_integer Status.Invalid.toInt)]))), g) ∧
      occursIn ("; id:" ++ toString e.id) msg := by
  have hbad : (memberOrNull members "class").is_string = false ∨
      (memberOrNull members "distinguisher").is_string = false ∨
      (memberOrNull members "expectedPrice").is_number = false := by
    rcases hmiss with h | h | h
    · exact Or.inl (by simp [memberOrNull, h, Json.is_string])
    · exact Or.inr (Or.inl (by simp [memberOrNull, h, Json.is_string]))
    · exact Or.inr (Or.inr (by simp [memberOrNull, h, Json.is_number]))
  obtain ⟨e, htry, _⟩ :=
    throwsTypeError_elim _ (try_throws_of_bad_member w.lib req members hparse hbad)
  refine ⟨e, _, htry, ?_, occursIn_id_parse_error e w.info.file w.info.fn_NewExpiringPurchase 158⟩
  rw [entry_try_error w g env this_obj js req e hread htry]
  rfl

/-- C4 (amended): for every request JSON object in which `class` or `distinguisher` is
not a JSON string, or `expectedPrice` is not a JSON number (a boolean, a string, `null`,
an array, an object), the response has status `Invalid` with a non-null error, and the
engine is left as it was: its purchase operation is not invoked. A price that is a
number with a fractional part (any `number_float`) is not rejected: with `class` and
`distinguisher` strings the request is dispatched to the engine, and the price passed is
the number truncated toward zero whenever the truncated value is an `int64_t`. -/
theorem NewExpiringPurchase_wrong_type (w : World) (g : Globals) (env : JNIEnvPtr)
    (this_obj : jobject) (js : JavaString) (req : String) (members : object_t)
    (hread : w.vm.GetStringUTFChars env js = some req)
    (hparse : w.lib.parse req = .ok (.object members)) :
    (((∃ v, object_t.find members "class" = some v ∧ v.is_string = false) ∨
        (∃ v, object_t.find members "distinguisher" = some v ∧ v.is_string = false) ∨
        (∃ v, object_t.find members "expectedPrice" = some v ∧ v.is_number = false)) →
      ∃ msg : String,
        Java_ca_psiphon_psicashlib_PsiCashLib_NewExpiringPurchase w g env this_obj (some js)
          = (w.vm.NewStringUTF env (c_str (w.lib.dump
              (.object [("error", .string msg), ("purchase", .null),
                ("status", .number_integer Status.Invalid.toInt)]))), g) ∧
        (Java_ca_psiphon_psicashlib_PsiCashLib_NewExpiringPurchase w g env this_obj
          (some js)).2.g_psiCash.purchase_calls = g.g_psiCash.purchase_calls) ∧
    (∀ (tc d : String) (q : ℚ),
      object_t.find members "class" = some (.string tc) →
      object_t.find members "distinguisher" = some (.string d) →
      object_t.find members "expectedPrice" = some (.number_float q) →
      NewExpiringPurchase_try w.lib req
          = .ok (tc, d, truncDouble w.lib.cast_out_of_range q) ∧
        (Java_ca_psiphon_psicashlib_PsiCashLib_NewExpiringPurchase w g env this_obj
          (some js)).2.g_psiCash.purchase_calls
            = g.g_psiCash.purchase_calls ++ [(tc, d, truncDouble w.lib.cast_out_of_range q)] ∧
        (-2 ^ 63 ≤ Int.tdiv q.num (q.den : Int) → Int.tdiv q.num (q.den : Int) < 2 ^ 63 →
          truncDouble w.lib.cast_out_of_range q = Int.tdiv q.num (q.den : Int) ∧
          ((0 ≤ q → truncDouble w.lib.cast_out_of_range q = ⌊q⌋) ∧
            (q ≤ 0 → truncDouble w.lib.cast_out_of_range q = ⌈q⌉)))) := by
  constructor
  · intro hbad
    have hbad2 : (memberOrNull members "class").is_string = false ∨
        (memberOrNull members "distinguisher").is_string = false ∨
        (memberOrNull members "expectedPrice").is_number = false := by
      rcases hbad with ⟨v, h, hv⟩ | ⟨v, h, hv⟩ | ⟨v, h, hv⟩
      · exact Or.inl (by simp [memberOrNull, h, hv])
      · exact Or.inr (Or.inl (by simp [memberOrNull, h, hv]))
      · exact Or.inr (Or.inr (by simp [memberOrNull, h, hv]))
    obtain ⟨e, htry, _⟩ :=
      throwsTypeError_elim _ (try_throws_of_bad_member w.lib req members hparse hbad2)
    rw [entry_try_error w g env this_obj js req e hread htry]
    exact ⟨_, rfl, rfl⟩
  · intro tc d q hc hd hp
    have htry : NewExpiringPurchase_try w.lib req
        = .ok (tc, d, truncDouble w.lib.cast_out_of_range q) :=
      try_ok w.lib req members tc d _ _ hparse hc hd hp rfl
    refine ⟨htry, ?_, ?_⟩
    · rw [entry_dispatched_globals w g env this_obj js req tc d _ hread htry]
      rfl
    · intro hlo hhi
      have heq := truncDouble_of_range w.lib.cast_out_of_range q hlo hhi
      exact ⟨heq, fun h0 => heq.trans (tdiv_eq_floor q h0),
        fun h0 => heq.trans (tdiv_eq_ceil q h0)⟩

/-- C5: when the request is an absent (`NULL`) string reference, or is the literal text
`null`, the response is `{status: Invalid, error: non-null, purchase: null}` and the
globals are left as they were: the engine's purchase operation is not invoked and its
HTTP request function is not rebound. -/
theorem NewExpiringPurchase_null_request (w : World) (g : Globals) (env : JNIEnvPtr)
    (this_obj : jobject) (j_params_json : jstring)
    (h : j_params_json = none ∨
      ∃ js, j_params_json = some js ∧ w.vm.GetStringUTFChars env js = some "null" ∧
        w.lib.parse "null" = .ok .null) :
    ∃ msg : String,
      Java_ca_psiphon_psicashlib_PsiCashLib_NewExpiringPurchase w g env this_obj j_params_json
        = (w.vm.NewStringUTF env (c_str (w.lib.dump
            (.object [("error", .string msg), ("purchase", .null),
              ("status", .number_integer Status.Invalid.toInt)]))), g) ∧
      (Java_ca_psiphon_psicashlib_PsiCashLib_NewExpiringPurchase w g env this_obj
        j_params_json).2.g_psiCash.purchase_calls = g.g_psiCash.purchase_calls ∧
      (Java_ca_psiphon_psicashlib_PsiCashLib_NewExpiringPurchase w g env this_obj
        j_params_json).2.g_psiCash.make_http_request_fn
          = g.g_psiCash.make_http_request_fn := by
  rcases h with h | ⟨js, h, hread, hparse⟩
  · subst h
    rw [entry_null]
    exact ⟨_, rfl, rfl, rfl⟩
  · subst h
    obtain ⟨e, htry, _⟩ := throwsTypeError_elim _ (try_throws_of_null w.lib "null" hparse)
    rw [entry_try_error w g env this_obj js "null" e hread htry]
    exact ⟨_, rfl, rfl, rfl⟩

/-- C6: for every well-formed request on which the engine's `NewExpiringPurchase` fails
with error `e`, the response has status `Invalid`, purchase `null` and error
`ToString(WrapError(e, "g_psiCash.NewExpiringPurchase failed"))`, a string in which the
rendered text `ToString(e)` of the engine's error occurs. -/
theorem NewExpiringPurchase_engine_failure (w : World) (g : Globals) (env : JNIEnvPtr)
    (this_obj : jobject) (js : JavaString) (req : String) (members : object_t)
    (tc d : String) (price : Int) (e : ErrorValue)
    (hread : w.vm.GetStringUTFChars env js = some req)
    (hparse : w.lib.parse req = .ok (.object members))
    (hwf : WellFormedRequest members tc d price)
    (heng : engineOutcome w g env this_obj tc d price = .error e) :
    (Java_ca_psiphon_psicashlib_PsiCashLib_NewExpiringPurchase w g env this_obj (some js)).1
      = w.vm.NewStringUTF env (c_str (w.lib.dump
          (.object [("error", .string
              (WrapError e "g_psiCash.NewExpiringPurchase failed" w.info.file
                w.info.fn_NewExpiringPurchase 168).ToString),
            ("purchase", .null), ("status", .number_integer Status.Invalid.toInt)]))) ∧
    occursIn e.ToString
      (WrapError e "g_psiCash.NewExpiringPurchase failed" w.info.file
        w.info.fn_NewExpiringPurchase 168).ToString := by
  have htry := try_ok_of_wellFormed w.lib req members tc d price hparse hwf
  rw [entry_engine_error w g env this_obj js req tc d price e hread htry heng]
  exact ⟨rfl, occursIn_cause e _ _ _ _⟩

theorem stub_init :
    json_object [("status", .number_integer (-1)), ("error", .null), ("body", .null),
        ("date", .null)]
      = [("body", .null), ("date", .null), ("error", .null), ("status", .number_integer (-1))] := by
  simp +decide [json_object, object_t.emplace]

theorem stub_assign_error (v : Json) :
    object_t.assign
        [("body", .null), ("date", .null), ("error", .null), ("status", .number_integer (-1))]
        "error" v
      = [("body", .null), ("date", .null), ("error", v), ("status", .number_integer (-1))] := by
  simp +decide [object_t.assign]

theorem http_req_fn_transfer_failed (w : World) (mid : Option jmethodID)
    (c : MakeHTTPRequestFn) (params : String) (st : JNIEnvState)
    (hnew : w.vm.NewStringUTF c.env (c_str params) = none) :
    http_req_fn w mid c params st
      = (w.lib.dump (stubResult (.string
          (MakeError "NewStringUTF failed" w.info.file w.info.fn_http_req_fn 46).ToString)),
        { st with described := st.described + 1, exception := false }) := by
  simp [http_req_fn, hnew, stub_init, stub_assign_error, stubResult, CheckJNIException]

theorem http_req_fn_host_threw (w : World) (mid : Option jmethodID)
    (c : MakeHTTPRequestFn) (params : String) (st : JNIEnvState) (jParams : JavaString)
    (hnew : w.vm.NewStringUTF c.env (c_str params) = some jParams)
    (hcall : w.vm.CallObjectMethod c.env c.this_obj mid jParams = .threw) :
    http_req_fn w mid c params st
      = (w.lib.dump (stubResult (.string
          (MakeError "CallObjectMethod failed" w.info.file w.info.fn_http_req_fn 53).ToString)),
        { st with described := st.described + 1, exception := false }) := by
  simp [http_req_fn, hnew, hcall, stub_init, stub_assign_error, stubResult, CheckJNIException]

theorem http_req_fn_host_null (w : World) (mid : Option jmethodID)
    (c : MakeHTTPRequestFn) (params : String) (st : JNIEnvState) (jParams : JavaString)
    (hnew : w.vm.NewStringUTF c.env (c_str params) = some jParams)
    (hcall : w.vm.CallObjectMethod c.env c.this_obj mid jParams = .returned none) :
    http_req_fn w mid c params st
      = (w.lib.dump (stubResult (.string
          (MakeError "CallObjectMethod failed" w.info.file w.info.fn_http_req_fn 53).ToString)),
        (CheckJNIException st).2) := by
  simp [http_req_fn, hnew, hcall, stub_init, stub_assign_error, stubResult]

theorem http_req_fn_readback_failed (w : World) (mid : Option jmethodID)
    (c : MakeHTTPRequestFn) (params : String) (st : JNIEnvState) (jParams jResult : JavaString)
    (hnew : w.vm.NewStringUTF c.env (c_str params) = some jParams)
    (hcall : w.vm.CallObjectMethod c.env c.this_obj mid jParams = .returned (some jResult))
    (hget : w.vm.GetStringUTFChars c.env jResult = none) :
    http_req_fn w mid c params st
      = (w.lib.dump (stubResult (.string
          (MakeError "GetStringUTFChars failed" w.info.file w.info.fn_http_req_fn 60).ToString)),
        { st with described := st.described + 1, exception := false }) := by
  simp [http_req_fn, hnew, hcall, hget, stub_init, stub_assign_error, stubResult,
    CheckJNIException]

theorem http_req_fn_host_result (w : World) (mid : Option jmethodID)
    (c : MakeHTTPRequestFn) (params : String) (st : JNIEnvState) (jParams jResult : JavaString)
    (result : String)
    (hnew : w.vm.NewStringUTF c.env (c_str params) = some jParams)
    (hcall : w.vm.CallObjectMethod c.env c.this_obj mid jParams = .returned (some jResult))
    (hget : w.vm.GetStringUTFChars c.env jResult = some result) :
    http_req_fn w mid c params st = (result, st) := by
  simp [http_req_fn, hnew, hcall, hget]

theorem checkJNIException_clears (st : JNIEnvState) :
    (CheckJNIException st).2.exception = false := by
  unfold CheckJNIException
  split
  · rfl
  · simp_all

theorem frameText_head (m f fn : String) (l : Nat) (c : Char) (rest : List Char)
    (hm : m.data = c :: rest) : (frameText m f fn l).data.head? = some c := by
  simp [frameText, String.data_append, hm]

theorem makeError_ne (m1 m2 f fn : String) (l1 l2 : Nat) (c1 c2 : Char) (r1 r2 : List Char)
    (h1 : m1.data = c1 :: r1) (h2 : m2.data = c2 :: r2) (hne : c1 ≠ c2) :
    (MakeError m1 f fn l1).ToString ≠ (MakeError m2 f fn l2).ToString := by
  intro h
  simp only [MakeError, ErrorValue.ToString] at h
  have e1 := frameText_head m1 f fn l1 c1 r1 h1
  have e2 := frameText_head m2 f fn l2 c2 r2 h2
  rw [h, e2] at e1
  exact hne (Option.some.inj e1).symm

theorem getMethodID_isSome (clazz : jclass) (name sig : String) :
    (GetMethodID clazz name sig).isSome = true ↔
      ∃ mid, (name, sig, mid) ∈ clazz.cls.methods := by
  unfold GetMethodID
  have hmap : ∀ o : Option (String × String × jmethodID),
      (o.map (fun m => m.2.2)).isSome = o.isSome := by
    intro o
    cases o <;> rfl
  rw [hmap, List.find?_isSome]
  constructor
  · rintro ⟨⟨n, s, mid⟩, hmem, hp⟩
    simp only [decide_eq_true_eq] at hp
    obtain ⟨rfl, rfl⟩ := hp
    exact ⟨mid, hmem⟩
  · rintro ⟨mid, hmem⟩
    exact ⟨(name, sig, mid), hmem, by simp⟩

/-- C7: for every request string and every host behaviour the adapter's callable returns
a string: when the request is transferred, the host returns a non-null result and the
result can be read back, it is exactly the host's result string; in every other case it
is the serialization of the JSON object `{status: -1, error, body: null, date: null}`
with `error` a string, which (the JSON library reading back what it wrote for the
adapter's stubs) parses back to exactly these four members. -/
theorem http_req_fn_returns (w : World) (mid : Option jmethodID) (c : MakeHTTPRequestFn)
    (params : String) (st : JNIEnvState)
    (hrt : ∀ msg ∈ adapterErrors w.info,
      w.lib.parse (w.lib.dump (stubResult (.string msg))) = .ok (stubResult (.string msg))) :
    (∀ jParams jResult result,
      w.vm.NewStringUTF c.env (c_str params) = some jParams →
      w.vm.CallObjectMethod c.env c.this_obj mid jParams = .returned (some jResult) →
      w.vm.GetStringUTFChars c.env jResult = some result →
      (http_req_fn w mid c params st).1 = result) ∧
    ((¬ ∃ jParams jResult result,
        w.vm.NewStringUTF c.env (c_str params) = some jParams ∧
        w.vm.CallObjectMethod c.env c.this_obj mid jParams = .returned (some jResult) ∧
        w.vm.GetStringUTFChars c.env jResult = some result) →
      ∃ msg : String,
        (http_req_fn w mid c params st).1
          = w.lib.dump (.object [("body", .null), ("date", .null), ("error", .string msg),
              ("status", .number_integer (-1))]) ∧
        w.lib.parse (http_req_fn w mid c params st).1
          = .ok (.object [("body", .null), ("date", .null), ("error", .string msg),
              ("status", .number_integer (-1))])) := by
  constructor
  · intro jParams jResult result hnew hcall hget
    rw [http_req_fn_host_result w mid c params st jParams jResult result hnew hcall hget]
  · intro hno
    have key : ∀ msg ∈ adapterErrors w.info,
        (http_req_fn w mid c params st).1 = w.lib.dump (stubResult (.string msg)) →
        ∃ msg : String,
          (http_req_fn w mid c params st).1
            = w.lib.dump (.object [("body", .null), ("date", .null), ("error", .string msg),
                ("status", .number_integer (-1))]) ∧
          w.lib.parse (http_req_fn w mid c params st).1
            = .ok (.object [("body", .null), ("date", .null), ("error", .string msg),
                ("status", .number_integer (-1))]) := by
      intro msg hmem heq
      refine ⟨msg, heq, ?_⟩
      rw [heq]
      exact hrt msg hmem
    rcases hnew : w.vm.NewStringUTF c.env (c_str params) with _ | jParams
    · refine key _ ?_ (by rw [http_req_fn_transfer_failed w mid c params st hnew])
      simp [adapterErrors]
    rcases hcall : w.vm.CallObjectMethod c.env c.this_obj mid jParams with r | _
    · rcases r with _ | jResult
      · refine key _ ?_ (by rw [http_req_fn_host_null w mid c params st jParams hnew hcall])
        simp [adapterErrors]
      · rcases hget : w.vm.GetStringUTFChars c.env jResult with _ | result
        · refine key _ ?_
            (by rw [http_req_fn_readback_failed w mid c params st jParams jResult hnew hcall hget])
          simp [adapterErrors]
        · exact absurd ⟨jParams, jResult, result, hnew, hcall, hget⟩ hno
    · refine key _ ?_ (by rw [http_req_fn_host_threw w mid c params st jParams hnew hcall])
      simp [adapterErrors]

/-- C8 (amended): the error placed in the adapter's stub result identifies the JNI call
that failed: a host call during which the host raised a fault and a host call that
returned null without raising any fault yield the same error value, that of
`CallObjectMethod failed`, and leave no fault pending; this value differs from the errors
for a request-transfer failure (`NewStringUTF failed`) and for a result read-back failure
(`GetStringUTFChars failed`), which differ from each other. -/
theorem http_req_fn_call_failure (w : World) (mid : Option jmethodID) (c : MakeHTTPRequestFn)
    (params : String) (st : JNIEnvState) (jParams : JavaString)
    (hnew : w.vm.NewStringUTF c.env (c_str params) = some jParams)
    (hcall : w.vm.CallObjectMethod c.env c.this_obj mid jParams = .threw ∨
      w.vm.CallObjectMethod c.env c.this_obj mid jParams = .returned none) :
    (http_req_fn w mid c params st).1
      = w.lib.dump (.object [("body", .null), ("date", .null),
          ("error", .string
            (MakeError "CallObjectMethod failed" w.info.file w.info.fn_http_req_fn 53).ToString),
          ("status", .number_integer (-1))]) ∧
    (http_req_fn w mid c params st).2.exception = false ∧
    (MakeError "CallObjectMethod failed" w.info.file w.info.fn_http_req_fn 53).ToString
      ≠ (MakeError "NewStringUTF failed" w.info.file w.info.fn_http_req_fn 46).ToString ∧
    (MakeError "CallObjectMethod failed" w.info.file w.info.fn_http_req_fn 53).ToString
      ≠ (MakeError "GetStringUTFChars failed" w.info.file w.info.fn_http_req_fn 60).ToString ∧
    (MakeError "NewStringUTF failed" w.info.file w.info.fn_http_req_fn 46).ToString
      ≠ (MakeError "GetStringUTFChars failed" w.info.file w.info.fn_http_req_fn 60).ToString := by
  refine ⟨?_, ?_, ?_, ?_, ?_⟩
  · rcases hcall with hcall | hcall
    · rw [http_req_fn_host_threw w mid c params st jParams hnew hcall]
      rfl
    · rw [http_req_fn_host_null w mid c params st jParams hnew hcall]
      rfl
  · rcases hcall with hcall | hcall
    · rw [http_req_fn_host_threw w mid c params st jParams hnew hcall]
    · rw [http_req_fn_host_null w mid c params st jParams hnew hcall]
      exact checkJNIException_clears st
  · exact makeError_ne _ _ _ _ _ _ 'C' 'N' _ _ rfl rfl (by decide)
  · exact makeError_ne _ _ _ _ _ _ 'C' 'G' _ _ rfl rfl (by decide)
  · exact makeError_ne _ _ _ _ _ _ 'N' 'G' _ _ rfl rfl (by decide)

/-! ## Static initialisation -/

/-- C10: `NativeStaticInit` returns true exactly when the host class exposes a method
`makeHTTPRequest` of signature `(Ljava/lang/String;)Ljava/lang/String;`, and a second
call with (any reference to) the same host class returns the same boolean and leaves the
globally bound method identity equal to the one the first call bound. -/
theorem NativeStaticInit_idempotent (type : jclass) (ref2 : Nat) (g : Globals)
    (st : JNIEnvState) :
    ((Java_ca_psiphon_psicashlib_PsiCashLib_NativeStaticInit type g st).1 = true ↔
      ∃ mid, (HTTP_REQUEST_FN_NAME, HTTP_REQUEST_FN_SIG, mid) ∈ type.cls.methods) ∧
    (Java_ca_psiphon_psicashlib_PsiCashLib_NativeStaticInit ⟨ref2, type.cls⟩
        (Java_ca_psiphon_psicashlib_PsiCashLib_NativeStaticInit type g st).2.1
        (Java_ca_psiphon_psicashlib_PsiCashLib_NativeStaticInit type g st).2.2).1
      = (Java_ca_psiphon_psicashlib_PsiCashLib_NativeStaticInit type g st).1 ∧
    (Java_ca_psiphon_psicashlib_PsiCashLib_NativeStaticInit ⟨ref2, type.cls⟩
        (Java_ca_psiphon_psicashlib_PsiCashLib_NativeStaticInit type g st).2.1
        (Java_ca_psiphon_psicashlib_PsiCashLib_NativeStaticInit type g st).2.2
      ).2.1.g_makeHTTPRequestMID
      = (Java_ca_psiphon_psicashlib_PsiCashLib_NativeStaticInit type g st).2.1.g_makeHTTPRequestMID := by
  have hsame : ∀ (r : Nat),
      GetMethodID ⟨r, type.cls⟩ HTTP_REQUEST_FN_NAME HTTP_REQUEST_FN_SIG
        = GetMethodID type HTTP_REQUEST_FN_NAME HTTP_REQUEST_FN_SIG := fun _ => rfl
  have hex := getMethodID_isSome type HTTP_REQUEST_FN_NAME HTTP_REQUEST_FN_SIG
  simp only [Java_ca_psiphon_psicashlib_PsiCashLib_NativeStaticInit, NewGlobalRef, hsame]
  rcases hmid : GetMethodID type HTTP_REQUEST_FN_NAME HTTP_REQUEST_FN_SIG with _ | mid
  · rw [hmid] at hex
    refine ⟨?_, rfl, rfl⟩
    constructor
    · intro h
      simp at h
    · intro h
      exact absurd (hex.mpr h) (by simp)
  · rw [hmid] at hex
    refine ⟨?_, rfl, rfl⟩
    constructor
    · intro _
      exact hex.mp rfl
    · intro _
      rfl

/-! ## The statements at the concrete world -/

theorem demo_stubs_read_back : ∀ msg ∈ adapterErrors demoWorld.info,
    demoWorld.lib.parse (demoWorld.lib.dump (stubResult (.string msg)))
      = .ok (stubResult (.string msg)) := by
  intro msg hmsg
  simp only [adapterErrors, List.mem_cons, List.mem_singleton, List.not_mem_nil, or_false]
    at hmsg
  rcases hmsg with rfl | rfl | rfl <;> rfl

theorem purchaseMembers_wellFormed :
    WellFormedRequest purchaseMembers "speed-boost" "1hr" 100 :=
  ⟨rfl, rfl, Or.inr ⟨by decide, rfl⟩, by decide, by decide⟩

theorem get_int64_three_halves (outOfRange : ℚ → Int) :
    (Json.number_float (3 / 2)).get_int64 outOfRange = .ok 1 := by
  norm_num [Json.get_int64, truncDouble, Int.tdiv]

/-- C1, at the concrete world: the well-formed `purchaseRequest` sent from host
instance 0. -/
theorem NewExpiringPurchase_response_shape_witness :
    ∃ out : object_t,
      (Java_ca_psiphon_psicashlib_PsiCashLib_NewExpiringPurchase demoWorld demoGlobals 1 0
          (some ⟨purchaseRequest⟩)).1
        = demoWorld.vm.NewStringUTF 1 (c_str (demoWorld.lib.dump (.object out))) ∧
      out.keys = ["error", "purchase", "status"] ∧
      (∀ k, k ∈ out.keys ↔ (k = "status" ∨ k = "error" ∨ k = "purchase")) ∧
      (object_t.find out "error" ≠ some .null →
        object_t.find out "status" = some Status.Invalid.to_json) :=
  NewExpiringPurchase_response_shape demoWorld demoGlobals 1 0 ⟨purchaseRequest⟩
    purchaseRequest purchaseMembers "speed-boost" "1hr" 100 rfl rfl purchaseMembers_wellFormed

/-- C2, at the concrete world: the engine succeeds on `purchaseRequest` with status
`Success` and a purchase; the response carries status 0, a null error and the purchase. -/
theorem NewExpiringPurchase_success_witness :
    (Java_ca_psiphon_psicashlib_PsiCashLib_NewExpiringPurchase demoWorld demoGlobals 1 0
        (some ⟨purchaseRequest⟩)).1
      = some ⟨"\x7b\"error\":null,\"purchase\":\x7b\"class\":\"speed-boost\",\"distinguisher\":\"1hr\"\x7d,\"status\":0\x7d"⟩ :=
  (NewExpiringPurchase_success demoWorld demoGlobals 1 0 ⟨purchaseRequest⟩ purchaseRequest
    purchaseMembers "speed-boost" "1hr" 100
    ⟨.Success, some ⟨.object [("class", .string "speed-boost"),
      ("distinguisher", .string "1hr")]⟩⟩ rfl rfl purchaseMembers_wellFormed rfl).1.trans rfl

/-- C3, at the concrete world: `incompleteRequest` has no `distinguisher`. -/
theorem NewExpiringPurchase_missing_field_witness :
    ∃ (e : JsonException) (msg : String),
      NewExpiringPurchase_try demoWorld.lib incompleteRequest = .error e ∧
      Java_ca_psiphon_psicashlib_PsiCashLib_NewExpiringPurchase demoWorld demoGlobals 1 0
          (some ⟨incompleteRequest⟩)
        = (demoWorld.vm.NewStringUTF 1 (c_str (demoWorld.lib.dump
            (.object [("error", .string msg), ("purchase", .null),
              ("status", .number_integer Status.Invalid.toInt)]))), demoGlobals) ∧
      occursIn ("; id:" ++ toString e.id) msg :=
  NewExpiringPurchase_missing_field demoWorld demoGlobals 1 0 ⟨incompleteRequest⟩
    incompleteRequest incompleteMembers rfl rfl (Or.inr (Or.inl rfl))

/-- C4 (amended), at the concrete world: the price of `booleanRequest` is a boolean, the
request is answered with `Invalid`; the price of `fractionalRequest` is `1.5`, the request
is dispatched. -/
theorem NewExpiringPurchase_wrong_type_witness :
    (∃ msg : String,
      Java_ca_psiphon_psicashlib_PsiCashLib_NewExpiringPurchase demoWorld demoGlobals 1 0
          (some ⟨booleanRequest⟩)
        = (demoWorld.vm.NewStringUTF 1 (c_str (demoWorld.lib.dump
            (.object [("error", .string msg), ("purchase", .null),
              ("status", .number_integer Status.Invalid.toInt)]))), demoGlobals) ∧
      (Java_ca_psiphon_psicashlib_PsiCashLib_NewExpiringPurchase demoWorld demoGlobals 1 0
        (some ⟨booleanRequest⟩)).2.g_psiCash.purchase_calls
          = demoGlobals.g_psiCash.purchase_calls) ∧
    (Java_ca_psiphon_psicashlib_PsiCashLib_NewExpiringPurchase demoWorld demoGlobals 1 0
        (some ⟨fractionalRequest⟩)).2.g_psiCash.purchase_calls
      = demoGlobals.g_psiCash.purchase_calls ++
          [("speed-boost", "1hr", truncDouble demoWorld.lib.cast_out_of_range (3 / 2))] :=
  ⟨(NewExpiringPurchase_wrong_type demoWorld demoGlobals 1 0 ⟨booleanRequest⟩ booleanRequest
      booleanMembers rfl rfl).1 (Or.inr (Or.inr ⟨.boolean true, rfl, rfl⟩)),
    ((NewExpiringPurchase_wrong_type demoWorld demoGlobals 1 0 ⟨fractionalRequest⟩
      fractionalRequest fractionalMembers rfl rfl).2 "speed-boost" "1hr" (3 / 2) rfl rfl
      rfl).2.1⟩

/-- C4, refuted as stated: in `fractionalRequest` the price is `1.5`, a number with a
fractional part; `get<int64_t>()` truncates it to 1, the engine's purchase operation is
invoked with price 1 and the response carries the engine's status (0, `Success`), not
`Invalid`. -/
theorem NewExpiringPurchase_fractional_price_dispatched :
    demoWorld.lib.parse fractionalRequest
      = .ok (.object [("class", .string "speed-boost"), ("distinguisher", .string "1hr"),
          ("expectedPrice", .number_float (3 / 2))]) ∧
    (Java_ca_psiphon_psicashlib_PsiCashLib_NewExpiringPurchase demoWorld demoGlobals 1 0
        (some ⟨fractionalRequest⟩)).1
      = some ⟨"\x7b\"error\":null,\"purchase\":\x7b\"class\":\"speed-boost\",\"distinguisher\":\"1hr\"\x7d,\"status\":0\x7d"⟩ ∧
    (Java_ca_psiphon_psicashlib_PsiCashLib_NewExpiringPurchase demoWorld demoGlobals 1 0
        (some ⟨fractionalRequest⟩)).2.g_psiCash.purchase_calls
      = [("speed-boost", "1hr", 1)] := by
  have htry : NewExpiringPurchase_try demoWorld.lib fractionalRequest
      = .ok ("speed-boost", "1hr", 1) :=
    try_ok demoWorld.lib fractionalRequest fractionalMembers "speed-boost" "1hr"
      (.number_float (3 / 2)) 1 rfl rfl rfl rfl (get_int64_three_halves _)
  rw [entry_engine_ok demoWorld demoGlobals 1 0 ⟨fractionalRequest⟩ fractionalRequest
    "speed-boost" "1hr" 1
    ⟨.Success, some ⟨.object [("class", .string "speed-boost"),
      ("distinguisher", .string "1hr")]⟩⟩ rfl htry rfl]
  exact ⟨rfl, rfl, rfl⟩

/-- C5, at the concrete world: the request is the literal text `null`. -/
theorem NewExpiringPurchase_null_request_witness :
    ∃ msg : String,
      Java_ca_psiphon_psicashlib_PsiCashLib_NewExpiringPurchase demoWorld demoGlobals 1 0
          (some ⟨"null"⟩)
        = (demoWorld.vm.NewStringUTF 1 (c_str (demoWorld.lib.dump
            (.object [("error", .string msg), ("purchase", .null),
              ("status", .number_integer Status.Invalid.toInt)]))), demoGlobals) ∧
      (Java_ca_psiphon_psicashlib_PsiCashLib_NewExpiringPurchase demoWorld demoGlobals 1 0
        (some ⟨"null"⟩)).2.g_psiCash.purchase_calls = demoGlobals.g_psiCash.purchase_calls ∧
      (Java_ca_psiphon_psicashlib_PsiCashLib_NewExpiringPurchase demoWorld demoGlobals 1 0
        (some ⟨"null"⟩)).2.g_psiCash.make_http_request_fn
          = demoGlobals.g_psiCash.make_http_request_fn :=
  NewExpiringPurchase_null_request demoWorld demoGlobals 1 0 (some ⟨"null"⟩)
    (Or.inr ⟨⟨"null"⟩, rfl, rfl, rfl⟩)

/-- C6, at the concrete world: host instance 1 returns null, the engine receives the
adapter's stub and fails. -/
theorem NewExpiringPurchase_engine_failure_witness :
    (Java_ca_psiphon_psicashlib_PsiCashLib_NewExpiringPurchase demoWorld demoGlobals 1 1
        (some ⟨purchaseRequest⟩)).1
      = demoWorld.vm.NewStringUTF 1 (c_str (demoWorld.lib.dump
          (.object [("error", .string
              (WrapError (MakeError "request failed" "psicash.cpp" "NewExpiringPurchase" 2)
                "g_psiCash.NewExpiringPurchase failed" demoWorld.info.file
                demoWorld.info.fn_NewExpiringPurchase 168).ToString),
            ("purchase", .null), ("status", .number_integer Status.Invalid.toInt)]))) ∧
    occursIn (MakeError "request failed" "psicash.cpp" "NewExpiringPurchase" 2).ToString
      (WrapError (MakeError "request failed" "psicash.cpp" "NewExpiringPurchase" 2)
        "g_psiCash.NewExpiringPurchase failed" demoWorld.info.file
        demoWorld.info.fn_NewExpiringPurchase 168).ToString :=
  NewExpiringPurchase_engine_failure demoWorld demoGlobals 1 1 ⟨purchaseRequest⟩
    purchaseRequest purchaseMembers "speed-boost" "1hr" 100
    (MakeError "request failed" "psicash.cpp" "NewExpiringPurchase" 2) rfl rfl
    purchaseMembers_wellFormed rfl

/-- C7, at the concrete world: host instance 1 returns null. -/
theorem http_req_fn_returns_witness :
    (∀ jParams jResult result,
      demoWorld.vm.NewStringUTF 1 (c_str "request") = some jParams →
      demoWorld.vm.CallObjectMethod 1 1 (some 7) jParams = .returned (some jResult) →
      demoWorld.vm.GetStringUTFChars 1 jResult = some result →
      (http_req_fn demoWorld (some 7) ⟨1, 1⟩ "request" ⟨false, 0, 0⟩).1 = result) ∧
    ((¬ ∃ jParams jResult result,
        demoWorld.vm.NewStringUTF 1 (c_str "request") = some jParams ∧
        demoWorld.vm.CallObjectMethod 1 1 (some 7) jParams = .returned (some jResult) ∧
        demoWorld.vm.GetStringUTFChars 1 jResult = some result) →
      ∃ msg : String,
        (http_req_fn demoWorld (some 7) ⟨1, 1⟩ "request" ⟨false, 0, 0⟩).1
          = demoWorld.lib.dump (.object [("body", .null), ("date", .null),
              ("error", .string msg), ("status", .number_integer (-1))]) ∧
        demoWorld.lib.parse (http_req_fn demoWorld (some 7) ⟨1, 1⟩ "request" ⟨false, 0, 0⟩).1
          = .ok (.object [("body", .null), ("date", .null), ("error", .string msg),
              ("status", .number_integer (-1))])) :=
  http_req_fn_returns demoWorld (some 7) ⟨1, 1⟩ "request" ⟨false, 0, 0⟩ demo_stubs_read_back

/-- C8 (amended), at the concrete world: host instance 2 raises a fault. -/
theorem http_req_fn_call_failure_witness :
    (http_req_fn demoWorld (some 7) ⟨1, 2⟩ "request" ⟨false, 0, 0⟩).1
      = demoWorld.lib.dump (.object [("body", .null), ("date", .null),
          ("error", .string
            (MakeError "CallObjectMethod failed" demoWorld.info.file
              demoWorld.info.fn_http_req_fn 53).ToString),
          ("status", .number_integer (-1))]) ∧
    (http_req_fn demoWorld (some 7) ⟨1, 2⟩ "request" ⟨false, 0, 0⟩).2.exception = false ∧
    (MakeError "CallObjectMethod failed" demoWorld.info.file
        demoWorld.info.fn_http_req_fn 53).ToString
      ≠ (MakeError "NewStringUTF failed" demoWorld.info.file
        demoWorld.info.fn_http_req_fn 46).ToString ∧
    (MakeError "CallObjectMethod failed" demoWorld.info.file
        demoWorld.info.fn_http_req_fn 53).ToString
      ≠ (MakeError "GetStringUTFChars failed" demoWorld.info.file
        demoWorld.info.fn_http_req_fn 60).ToString ∧
    (MakeError "NewStringUTF failed" demoWorld.info.file
        demoWorld.info.fn_http_req_fn 46).ToString
      ≠ (MakeError "GetStringUTFChars failed" demoWorld.info.file
        demoWorld.info.fn_http_req_fn 60).ToString :=
  http_req_fn_call_failure demoWorld (some 7) ⟨1, 2⟩ "request" ⟨false, 0, 0⟩ ⟨"request"⟩ rfl
    (Or.inl rfl)

/-- C8, refuted as stated: host instance 2 raises a fault during the call and host
instance 1 returns null without raising one; the adapter returns the same stub, with the
same error value, in both cases. -/
theorem http_req_fn_fault_and_null_same_error :
    demoWorld.vm.CallObjectMethod 1 2 (some 7) ⟨"request"⟩ = .threw ∧
    demoWorld.vm.CallObjectMethod 1 1 (some 7) ⟨"request"⟩ = .returned none ∧
    (http_req_fn demoWorld (some 7) ⟨1, 2⟩ "request" ⟨false, 0, 0⟩).1
      = "\x7b\"body\":null,\"date\":null,\"error\":\"CallObjectMethod failed [jniglue.cpp:GetHTTPReqFn(JNIEnv *, jobject &)::(anonymous class)::operator():53]\",\"status\":-1\x7d" ∧
    (http_req_fn demoWorld (some 7) ⟨1, 1⟩ "request" ⟨false, 0, 0⟩).1
      = "\x7b\"body\":null,\"date\":null,\"error\":\"CallObjectMethod failed [jniglue.cpp:GetHTTPReqFn(JNIEnv *, jobject &)::(anonymous class)::operator():53]\",\"status\":-1\x7d" :=
  ⟨rfl, rfl, rfl, rfl⟩

end PsiCashJni
